import Mathlib

/-!
Verification development for the symbolic tensor core of `einsteinpy`
(`src/einsteinpy/symbolic/...`).

Shallow embedding conventions:
* Symbolic expressions are modelled by their values in `ℚ` (the
  computer-algebra backend is an external collaborator whose `simplify`
  is semantics-preserving, hence the identity on values).
* An order-`n` array of expressions with axis size `d` is a function
  `(Fin n → Fin d) → ℚ`.
* Python exceptions are modelled with `Except`; the error kinds follow the
  spec's error taxonomy (section 7 of the design document).
* Operations whose defining module is not present under `src/` are modelled
  from the spec and carry a doc comment saying so.
-/

namespace einsteinpy

/-- Components of an order-`n` tensor with each axis of size `d`
(a multi-dimensional array of symbolic expressions, value semantics). -/
def TComp (d n : ℕ) : Type := (Fin n → Fin d) → ℚ

/-- Index kind of one tensor axis: contravariant (`u`) or covariant (`l`). -/
inductive IndexKind : Type
  | u : IndexKind
  | l : IndexKind
deriving DecidableEq, Repr

/-- The sympy external `tensorproduct`: outer product of two arrays,
expanding to `m + n` axes (spec section 6, collaborator operation (c)). -/
def tensorproduct {d m n : ℕ} (A : TComp d m) (B : TComp d n) : TComp d (m + n) :=
  fun p => A (fun i => p (Fin.castAdd n i)) * B (fun j => p (Fin.natAdd m j))

/-- Total lookup into an index vector (out-of-range positions, which never
occur for valid axis pairs, fall back to `dflt`). -/
def getIdx {d n : ℕ} (dflt : Fin d) (k : Fin n → Fin d) (t : ℕ) : Fin d :=
  if h : t < n then k ⟨t, h⟩ else dflt

/-- Index-reconstruction helper for `tensorcontraction`: given a value `s`
for the contracted pair of axes `p < q` and an index `k` for the remaining
axes (kept in their original relative order), rebuild the full index. -/
def insertPair {d n : ℕ} (p q : ℕ) (s : Fin d) (k : Fin n → Fin d) :
    Fin (n + 2) → Fin d :=
  fun a =>
    if a.val = p ∨ a.val = q then s
    else if a.val < p then getIdx s k a.val
    else if a.val < q then getIdx s k (a.val - 1)
    else getIdx s k (a.val - 2)

/-- The sympy external `tensorcontraction`: sum over one pair of axes
`(p, q)` with `p < q`, reducing the order by 2 (spec section 6,
collaborator operation (c)). -/
def tensorcontraction {d n : ℕ} (T : TComp d (n + 2)) (p q : ℕ) : TComp d n :=
  fun k => ∑ s : Fin d, T (insertPair p q s k)

/-- The value of an order-0 array (a fully contracted scalar). -/
def scalarOf {d : ℕ} (T : TComp d 0) : ℚ := T (fun a => a.elim0)

/-- Index vector of length 4. -/
def idx4 {d : ℕ} (i j k l : Fin d) : Fin 4 → Fin d :=
  fun a => if a.val = 0 then i else if a.val = 1 then j else if a.val = 2 then k else l

/-- Index vector of length 2. -/
def idx2 {d : ℕ} (i j : Fin d) : Fin 2 → Fin d :=
  fun a => if a.val = 0 then i else j

/-- The external simplifier on arrays (`einsteinpy.symbolic.helpers.simplify_sympy_array`):
semantics-preserving, hence the identity on the value semantics. -/
def simplify_sympy_array {d n : ℕ} (T : TComp d n) : TComp d n := T

/-- The external sympy `simplify` on a single expression: identity on values. -/
def sympy_simplify (x : ℚ) : ℚ := x

/-- Modelled from the spec: `tensors/metric.py` is not under `src/`.
A `MetricTensor` (spec sections 3 and 4.3) carries its covariant
(`LOWER,LOWER`) components and its contravariant form, the symbolic matrix
inverse of the covariant array computed by the external CAS; its dimension
is `d` and `det(lower) ≠ 0` is a documented precondition, never checked. -/
structure MetricTensor (d : ℕ) : Type where
  lower : Matrix (Fin d) (Fin d) ℚ
  upper : Matrix (Fin d) (Fin d) ℚ
  syms : List String

/-- Modelled from the spec (section 4.3): `lower_config` returns the
covariant form of the metric. -/
def MetricTensor.lower_config {d : ℕ} (g : MetricTensor d) : Matrix (Fin d) (Fin d) ℚ :=
  g.lower

/-- Modelled from the spec (section 4.3): `upper_config` returns the
contravariant (inverse) form of the metric. -/
def MetricTensor.upper_config {d : ℕ} (g : MetricTensor d) : Matrix (Fin d) (Fin d) ℚ :=
  g.upper

/-- Error kinds, following the spec's error taxonomy (section 7).
`dimensionPrecondition` is the spec's `DimensionPreconditionError` (raised in
the source as `TypeError` in `levicivita.py` and `ValueError` in `weyl.py`);
`missingMetric` is the spec's `MissingMetricError` (raised in the source as a
bare `Exception` in the `change_config` methods); `attributeError` models a
Python `AttributeError` from accessing an attribute that does not exist
(e.g. `.dims` on `None`, or the metric interface on a non-metric object). -/
inductive PyError : Type
  | dimensionPrecondition : String → PyError
  | missingMetric : String → PyError
  | attributeError : String → PyError
deriving DecidableEq, Repr

/-- Generic relativity tensor record of order `n` (the `BaseRelativityTensor`
data of `tensors/tensor.py`, spec section 3): components, index
configuration, optional parent metric and coordinate symbols. -/
structure BaseRelativityTensor (d n : ℕ) : Type where
  comp : TComp d n
  config : Fin n → IndexKind
  parent_metric : Option (MetricTensor d)
  syms : List String

/-- One raising/lowering step of `_change_config` (spec section 4.2):
contract the tensor with the given metric form over position `pos`,
replacing that axis in place. -/
def applyMetricAt {d n : ℕ} (mat : Matrix (Fin d) (Fin d) ℚ) (pos : Fin n)
    (T : TComp d n) : TComp d n :=
  fun p => ∑ s : Fin d, mat (p pos) s * T (Function.update p pos s)

/-- Modelled from the spec: `tensors/tensor.py` (which defines the
`_change_config` helper imported by `weyl.py` and `levicivita.py`) is not
under `src/`.  Spec section 4.2: for each index position where the old and
new configuration differ, contract the tensor with the metric (its lower
form to lower the index, its upper form to raise it) over that position,
index by index; matching positions are untouched. -/
def _change_config {d n : ℕ} (T : TComp d n) (oldcfg newcfg : Fin n → IndexKind)
    (metric : MetricTensor d) : TComp d n :=
  (List.finRange n).foldl
    (fun acc i =>
      if oldcfg i = newcfg i then acc
      else applyMetricAt
        (match newcfg i with
          | IndexKind.l => metric.lower
          | IndexKind.u => metric.upper) i acc) T

/-- Modelled from the spec: `BaseRelativityTensor.change_config`
(`tensors/tensor.py`, not under `src/`; spec section 4.2).  Resolve the
metric: the given argument, else the parent metric, failing with
`MissingMetricError` when neither is available; then convert index by index
and return a new tensor with the new configuration and the resolved metric
as parent. -/
def BaseRelativityTensor.change_config {d n : ℕ} (self : BaseRelativityTensor d n)
    (newconfig : Fin n → IndexKind) (metric : Option (MetricTensor d)) :
    Except PyError (BaseRelativityTensor d n) :=
  match (match metric with
    | none => self.parent_metric
    | some m => some m) with
  | none => Except.error (PyError.missingMetric "Parent Metric not found, can't do configuration change")
  | some m => Except.ok
      { comp := _change_config self.comp self.config newconfig m
        config := newconfig
        parent_metric := some m
        syms := self.syms }

/-- Fixed index configurations used by the pipeline. -/
def cfg_llll : Fin 4 → IndexKind := fun _ => IndexKind.l

/-- Fully contravariant order-4 configuration. -/
def cfg_uuuu : Fin 4 → IndexKind := fun _ => IndexKind.u

/-- The `ulll` configuration of the Riemann tensor. -/
def cfg_ulll : Fin 4 → IndexKind :=
  fun a => if a.val = 0 then IndexKind.u else IndexKind.l

/-- The `uull` mixed configuration used by the dual Weyl tensor. -/
def cfg_uull : Fin 4 → IndexKind :=
  fun a => if a.val < 2 then IndexKind.u else IndexKind.l

/-- Covariant order-2 configuration. -/
def cfg_ll : Fin 2 → IndexKind := fun _ => IndexKind.l

/-- The `ul` mixed order-2 configuration. -/
def cfg_ul : Fin 2 → IndexKind :=
  fun a => if a.val = 0 then IndexKind.u else IndexKind.l

/-- The `lu` mixed order-2 configuration. -/
def cfg_lu : Fin 2 → IndexKind :=
  fun a => if a.val = 0 then IndexKind.l else IndexKind.u

/-- The string form of an index configuration (`'u'`/`'l'` per axis). -/
def configStr {n : ℕ} (c : Fin n → IndexKind) : String :=
  String.mk ((List.finRange n).map (fun i =>
    match c i with
    | IndexKind.u => 'u'
    | IndexKind.l => 'l'))

/-- Modelled from the spec: `helpers._change_name` is not under `src/`.
Spec sections 3 and 4.2: the name of a transformed tensor is the source
name rewritten with a deterministic suffix encoding the transformation
(e.g. appending `__llul`), so the new name is the old one with `context`
appended. -/
def _change_name (curr : String) (context : String) : String :=
  curr ++ context

/-- Number of inversions of a list of naturals (pairs out of order). -/
def inversions : List ℕ → ℕ
  | [] => 0
  | x :: xs => xs.countP (fun y => decide (y < x)) + inversions xs

/-- Modelled from the spec: `helpers.perm_parity` is not under `src/`.
Spec section 4.4 (Levi-Civita symbols): the sign of an index tuple is `+1`
for an even permutation, `-1` for an odd permutation (parity measured by
the inversion count) and `0` when any index repeats. -/
def perm_parity (l : List ℕ) : ℚ :=
  if l.Nodup then (if inversions l % 2 = 0 then 1 else -1) else 0

/-- The generic scalar record of the pipeline
(`BaseRelativityScalar`, `src/einsteinpy/symbolic/scalar.py`): a symbolic
expression with coordinate symbols and an optional parent metric. -/
structure BaseRelativityScalar (d : ℕ) : Type where
  expr : ℚ
  syms : List String
  parent_metric : Option (MetricTensor d)
  name : String

/-- `LeviCivitaSymbols` record (`tensors/levicivita.py`): an order-4
relativity tensor with a name. -/
structure LeviCivitaSymbols (d : ℕ) : Type where
  comp : TComp d 4
  config : Fin 4 → IndexKind
  parent_metric : Option (MetricTensor d)
  syms : List String
  name : String

/-- `WeylTensor` record (`tensors/weyl.py`): an order-4 relativity tensor
with a name. -/
structure WeylTensor (d : ℕ) : Type where
  comp : TComp d 4
  config : Fin 4 → IndexKind
  parent_metric : Option (MetricTensor d)
  syms : List String
  name : String

/-- `DualWeylTensor` record (`tensors/weyl.py`): an order-4 relativity
tensor with a name. -/
structure DualWeylTensor (d : ℕ) : Type where
  comp : TComp d 4
  config : Fin 4 → IndexKind
  parent_metric : Option (MetricTensor d)
  syms : List String
  name : String

/-- `LeviCivitaSymbols.change_config` (`tensors/levicivita.py` lines 45-81):
resolve the metric (argument, else parent, else raise), convert the index
configuration and build a new `LeviCivitaSymbols` with the new config, the
resolved metric as parent and the renamed name. -/
def LeviCivitaSymbols.change_config {d : ℕ} (self : LeviCivitaSymbols d)
    (newconfig : Fin 4 → IndexKind) (metric : Option (MetricTensor d)) :
    Except PyError (LeviCivitaSymbols d) :=
  match (match metric with
    | none => self.parent_metric
    | some m => some m) with
  | none => Except.error (PyError.missingMetric "Parent Metric not found, can't do configuration change")
  | some m => Except.ok
      { comp := _change_config self.comp self.config newconfig m
        config := newconfig
        parent_metric := some m
        syms := self.syms
        name := _change_name self.name ("__" ++ configStr newconfig) }

/-- `LeviCivitaSymbols.from_metric` (`tensors/levicivita.py` lines 83-115):
for a 4-dimensional metric, build the flat list of the 256 entries
`sqrt(|det g|) * perm_parity(unravel(i))` (row-major unraveling of the flat
counter over shape `[4]*4`) and reshape it into an order-4 `llll` array;
for any other dimension raise (`TypeError` in the source, the spec's
`DimensionPreconditionError`).  The symbolic square root and the final
`simplify` belong to the external CAS and enter as `sqrtfn`. -/
def LeviCivitaSymbols.from_metric {d : ℕ} (sqrtfn : ℚ → ℚ) (metric : MetricTensor d) :
    Except PyError (LeviCivitaSymbols d) :=
  if d = 4 then
    let mat := metric.lower_config
    let mat_det := sympy_simplify (sqrtfn |mat.det|)
    let tmplist : List ℚ := (List.range 256).map (fun i =>
      mat_det * perm_parity [i / 64 % 4, i / 16 % 4, i / 4 % 4, i % 4])
    Except.ok
      { comp := fun p => tmplist.getD
          (64 * (p 0).val + 16 * (p 1).val + 4 * (p 2).val + (p 3).val) 0
        config := cfg_llll
        parent_metric := some metric
        syms := metric.syms
        name := "LeviCivitaSymbols" }
  else
    Except.error (PyError.dimensionPrecondition
      "currently the Levi Civita Symbols are only supported for a 4-Dimensional coordinate basis")

/-- Modelled from the spec: `tensors/ricci.py` is not under `src/`.
Spec section 4.4: the Ricci tensor is the "contraction of Riemann over one
upper and one adjacent lower index, order 2"; with the Riemann tensor in
its `ulll` configuration this contracts the upper axis 0 with the adjacent
lower axis 1.  Following the constructor pattern of the sibling modules in
`src/`, the Riemann tensor is first brought to `ulll` (with the supplied
metric, else its parent) and the resolved parent metric is attached. -/
def RicciTensor.from_riemann {d : ℕ} (riemann : BaseRelativityTensor d 4)
    (parent_metric : Option (MetricTensor d)) :
    Except PyError (BaseRelativityTensor d 2) := do
  let r ← if riemann.config = cfg_ulll then pure riemann
          else riemann.change_config cfg_ulll parent_metric
  Except.ok
    { comp := tensorcontraction r.comp 0 1
      config := cfg_ll
      parent_metric := (match parent_metric with
        | none => riemann.parent_metric
        | some m => some m)
      syms := riemann.syms }

/-- `RicciScalar.from_riccitensor` (`scalars/ricciinvariants.py` lines
17-45): bring the Ricci tensor to its mixed `ul` form if needed, resolve
the parent metric from the (possibly rebound) Ricci tensor, and fully
contract the remaining index pair `(0, 1)`. -/
def RicciScalar.from_riccitensor {d : ℕ} (riccitensor : BaseRelativityTensor d 2)
    (parent_metric : Option (MetricTensor d)) :
    Except PyError (BaseRelativityScalar d) := do
  let r ← if riccitensor.config = cfg_ul then pure riccitensor
          else riccitensor.change_config cfg_ul parent_metric
  let pm := match parent_metric with
    | none => r.parent_metric
    | some m => some m
  Except.ok
    { expr := sympy_simplify (scalarOf (tensorcontraction r.comp 0 1))
      syms := r.syms
      parent_metric := pm
      name := "RicciScalar" }

/-- `ThirdRicciInvariant.from_riccitensor` (`scalars/ricciinvariants.py`
lines 164-207): bring the Ricci tensor to its mixed `lu` form if needed,
take the tensor product of three copies of the mixed form and contract over
the axis pairs `(0,5)`, then `(0,1)`, then `(0,1)`. -/
def ThirdRicciInvariant.from_riccitensor {d : ℕ} (riccitensor : BaseRelativityTensor d 2)
    (parent_metric : Option (MetricTensor d)) :
    Except PyError (BaseRelativityScalar d) := do
  let ricci_mix ← if riccitensor.config = cfg_lu then pure riccitensor.comp
    else do
      let t ← riccitensor.change_config cfg_lu parent_metric
      pure t.comp
  let pm := match parent_metric with
    | none => riccitensor.parent_metric
    | some m => some m
  let third := tensorcontraction (tensorcontraction (tensorcontraction
    (tensorproduct (tensorproduct ricci_mix ricci_mix) ricci_mix) 0 5) 0 1) 0 1
  Except.ok
    { expr := sympy_simplify (scalarOf third)
      syms := riccitensor.syms
      parent_metric := pm
      name := "ThirdRicciInvariant" }

/-- One entry of the Weyl-tensor loop body (`tensors/weyl.py` lines 83-106):
the flat counter `t` is unraveled into `(i, k, l, m)` with axis `i` fastest
(`i = t % d`, `k = t/d % d`, `l = t/d² % d`, `m = t/d³ % d`), and
`C[i][k][l][m]` is set to the covariant Riemann entry plus the Ricci and
Ricci-scalar trace terms normalized by `(d-2)` and `(d-1)(d-2)`. -/
def weylEntry {d : ℕ} (hd : 0 < d) (g : Matrix (Fin d) (Fin d) ℚ)
    (rll : TComp d 4) (ric : TComp d 2) (rs : ℚ) (t : ℕ) : ℚ :=
  let i : Fin d := ⟨t % d, Nat.mod_lt _ hd⟩
  let k : Fin d := ⟨t / d % d, Nat.mod_lt _ hd⟩
  let l : Fin d := ⟨t / d ^ 2 % d, Nat.mod_lt _ hd⟩
  let m : Fin d := ⟨t / d ^ 3 % d, Nat.mod_lt _ hd⟩
  rll (idx4 i k l m) +
    (ric (idx2 i m) * g k l - ric (idx2 i l) * g k m
      + ric (idx2 k l) * g i m - ric (idx2 k m) * g i l) / ((d : ℚ) - 2) +
    rs * (g i l * g k m - g i m * g k l) / (((d : ℚ) - 1) * ((d : ℚ) - 2))

/-- `WeylTensor.from_riemann` (`tensors/weyl.py` lines 53-116): resolve the
metric (argument, else the Riemann tensor's parent; accessing `.dims` on
`None` is an `AttributeError`); for `dims > 3` compute the Ricci tensor and
scalar, bring the Riemann tensor to `llll`, and fill the order-4 array by
the flat loop over `dims⁴` counters (element `(i,k,l,m)` was written at the
unique counter `t = i + d·(k + d·(l + d·m))`); for `dims == 3` return the
zero `llll` tensor with the Riemann tensor's parent metric; otherwise raise
(`ValueError` in the source, the spec's `DimensionPreconditionError`). -/
def WeylTensor.from_riemann {d : ℕ} (riemann : BaseRelativityTensor d 4)
    (parent_metric : Option (MetricTensor d)) : Except PyError (WeylTensor d) :=
  match (match parent_metric with
    | none => riemann.parent_metric
    | some m => some m) with
  | none => Except.error (PyError.attributeError "'NoneType' object has no attribute 'dims'")
  | some metric =>
    if h : 3 < d then do
      let g := metric.lower_config
      let t_ricci ← RicciTensor.from_riemann riemann none
      let r ← if riemann.config = cfg_llll then pure riemann
              else riemann.change_config cfg_llll none
      let r_scalar ← RicciScalar.from_riccitensor t_ricci none
      Except.ok
        { comp := fun p => weylEntry (by omega) g r.comp t_ricci.comp r_scalar.expr
            ((p 0).val + d * ((p 1).val + d * ((p 2).val + d * (p 3).val)))
          config := cfg_llll
          parent_metric := some metric
          syms := r.syms
          name := "WeylTensor" }
    else if d = 3 then
      Except.ok
        { comp := fun _ => 0
          config := cfg_llll
          parent_metric := riemann.parent_metric
          syms := riemann.syms
          name := "WeylTensor" }
    else
      Except.error (PyError.dimensionPrecondition
        "Dimension of the space/space-time should be 3 or more")

/-- `WeylTensor.change_config` (`tensors/weyl.py` lines 118-154): resolve
the metric (argument, else parent, else raise), convert the configuration
and build a new `WeylTensor` with the new config, the resolved metric as
parent and the renamed name. -/
def WeylTensor.change_config {d : ℕ} (self : WeylTensor d)
    (newconfig : Fin 4 → IndexKind) (metric : Option (MetricTensor d)) :
    Except PyError (WeylTensor d) :=
  match (match metric with
    | none => self.parent_metric
    | some m => some m) with
  | none => Except.error (PyError.missingMetric "Parent Metric not found, can't do configuration change")
  | some m => Except.ok
      { comp := _change_config self.comp self.config newconfig m
        config := newconfig
        parent_metric := some m
        syms := self.syms
        name := _change_name self.name ("__" ++ configStr newconfig) }

/-- `DualWeylTensor.from_weyltensor` (`tensors/weyl.py` lines 234-270):
resolve the metric (argument, else the Weyl tensor's parent); require
`dims == 4` (else the source raises `ValueError`, the spec's
`DimensionPreconditionError`); build the Levi-Civita symbols from the
metric, bring the Weyl tensor to its mixed `uull` form, and contract the
product of `½·ε` with it over the axis pairs `(2,4)` then `(2,3)`. -/
def DualWeylTensor.from_weyltensor {d : ℕ} (sqrtfn : ℚ → ℚ) (weyl : WeylTensor d)
    (parent_metric : Option (MetricTensor d)) : Except PyError (DualWeylTensor d) :=
  match (match parent_metric with
    | none => weyl.parent_metric
    | some m => some m) with
  | none => Except.error (PyError.attributeError "'NoneType' object has no attribute 'dims'")
  | some metric =>
    if d = 4 then do
      let levi_c ← LeviCivitaSymbols.from_metric sqrtfn metric
      let w ← if weyl.config = cfg_uull then pure weyl
              else weyl.change_config cfg_uull none
      let prod8 : TComp d 8 :=
        tensorproduct (fun p => (1/2 : ℚ) * levi_c.comp p) w.comp
      let weyl_dual := tensorcontraction (tensorcontraction prod8 2 4) 2 3
      Except.ok
        { comp := weyl_dual
          config := cfg_llll
          parent_metric := some metric
          syms := w.syms
          name := "DualWeylTensor" }
    else
      Except.error (PyError.dimensionPrecondition
        "Dimension of the space/space-time should be 4")

/-- `DualWeylTensor.change_config` (`tensors/weyl.py` lines 272-308): same
resolution and conversion as the other order-4 classes. -/
def DualWeylTensor.change_config {d : ℕ} (self : DualWeylTensor d)
    (newconfig : Fin 4 → IndexKind) (metric : Option (MetricTensor d)) :
    Except PyError (DualWeylTensor d) :=
  match (match metric with
    | none => self.parent_metric
    | some m => some m) with
  | none => Except.error (PyError.missingMetric "Parent Metric not found, can't do configuration change")
  | some m => Except.ok
      { comp := _change_config self.comp self.config newconfig m
        config := newconfig
        parent_metric := some m
        syms := self.syms
        name := _change_name self.name ("__" ++ configStr newconfig) }

/-- A dynamically-typed argument, as passed around by the Python source:
either a `MetricTensor` or an order-4 relativity tensor. -/
inductive PyObj (d : ℕ) : Type
  | metric : MetricTensor d → PyObj d
  | tensor4 : BaseRelativityTensor d 4 → PyObj d

/-- Modelled from the spec: `tensors/riemann.py` and
`tensors/christoffel.py` are not under `src/`.  Spec section 4.4: the
Riemann tensor is derived from the Christoffel symbols, which are built
from the metric's lower/upper forms and their partial derivatives
(Γ = ½ g^{kl}(∂g + ∂g − ∂g)); partial differentiation is an external CAS
operation outside the value semantics of this embedding, so the
metric-to-Riemann computation enters as the parameter `riemannOfMetric`.
What the model keeps is the interface requirement: the argument must
expose the metric interface (`lower_config`/`upper_config`), so a
non-metric object fails with an `AttributeError`. -/
def RiemannCurvatureTensor.from_metric {d : ℕ}
    (riemannOfMetric : MetricTensor d → BaseRelativityTensor d 4)
    (o : PyObj d) : Except PyError (BaseRelativityTensor d 4) :=
  match o with
  | PyObj.metric g => Except.ok (riemannOfMetric g)
  | PyObj.tensor4 _ => Except.error
      (PyError.attributeError "'RiemannCurvatureTensor' object has no attribute 'lower_config'")

/-- `WeylTensor.from_metric` (`tensors/weyl.py` lines 156-168): derive the
Riemann tensor from the metric, then `from_riemann` with no parent
metric argument. -/
def WeylTensor.from_metric {d : ℕ}
    (riemannOfMetric : MetricTensor d → BaseRelativityTensor d 4)
    (o : PyObj d) : Except PyError (WeylTensor d) := do
  let riemann ← RiemannCurvatureTensor.from_metric riemannOfMetric o
  WeylTensor.from_riemann riemann none

/-- `DualWeylTensor.from_riemann` (`tensors/weyl.py` lines 311-323): the
source computes `weyl = WeylTensor.from_metric(riemann)` — handing the
Riemann tensor to the metric-consuming constructor — and then
`from_weyltensor(weyl, parent_metric)`. -/
def DualWeylTensor.from_riemann {d : ℕ} (sqrtfn : ℚ → ℚ)
    (riemannOfMetric : MetricTensor d → BaseRelativityTensor d 4)
    (riemann : BaseRelativityTensor d 4) (parent_metric : Option (MetricTensor d)) :
    Except PyError (DualWeylTensor d) := do
  let weyl ← WeylTensor.from_metric riemannOfMetric (PyObj.tensor4 riemann)
  DualWeylTensor.from_weyltensor sqrtfn weyl parent_metric

namespace scalars

/-- The current `KretschmannScalar.from_riemann`
(`scalars/kretschmann.py` lines 17-62): covariant and contravariant forms
of the Riemann tensor via `change_config` (skipped when the configuration
already matches), metric resolution for the result, the product of the two
forms contracted over the axis pairs `(0,4)`, `(0,3)`, `(0,2)`, `(0,1)`,
stored as a `BaseRelativityScalar`. -/
def KretschmannScalar.from_riemann {d : ℕ} (riemann : BaseRelativityTensor d 4)
    (parent_metric : Option (MetricTensor d)) :
    Except PyError (BaseRelativityScalar d) := do
  let riemann_cov ← if riemann.config = cfg_llll then pure riemann.comp
    else do
      let t ← riemann.change_config cfg_llll parent_metric
      pure t.comp
  let riemann_con ← if riemann.config = cfg_uuuu then pure riemann.comp
    else do
      let t ← riemann.change_config cfg_uuuu parent_metric
      pure t.comp
  let pm := match parent_metric with
    | none => riemann.parent_metric
    | some m => some m
  let prod8 : TComp d 8 := tensorproduct riemann_cov riemann_con
  let kretschmann_scalar := tensorcontraction (tensorcontraction (tensorcontraction
    (tensorcontraction prod8 0 4) 0 3) 0 2) 0 1
  Except.ok
    { expr := scalarOf (simplify_sympy_array kretschmann_scalar)
      syms := riemann.syms
      parent_metric := pm
      name := "KretschmannScalar" }

end scalars

namespace legacy

/-- The legacy `kretschmannscalar.py` `KretschmannScalar`: a rank-0
`BaseRelativityTensor` storing the contracted result as an order-0 array. -/
structure KretschmannScalar (d : ℕ) : Type where
  arr : TComp d 0
  syms : List String
  parent_metric : Option (MetricTensor d)
  name : String

/-- The legacy `expr` property (`kretschmannscalar.py` lines 40-46):
`sum(self.arr)` over the rank-0 array, i.e. the sum of its single
element. -/
def KretschmannScalar.expr {d : ℕ} (self : KretschmannScalar d) : ℚ :=
  ∑ p : Fin 0 → Fin d, self.arr p

/-- The legacy `KretschmannScalar.from_riemann` (`kretschmannscalar.py`
lines 48-93): the same statements as the current implementation — forms via
`change_config`, metric resolution, product contracted over `(0,4)`,
`(0,3)`, `(0,2)`, `(0,1)` — but stored as a rank-0 tensor. -/
def KretschmannScalar.from_riemann {d : ℕ} (riemann : BaseRelativityTensor d 4)
    (parent_metric : Option (MetricTensor d)) :
    Except PyError (KretschmannScalar d) := do
  let riemann_cov ← if riemann.config = cfg_llll then pure riemann.comp
    else do
      let t ← riemann.change_config cfg_llll parent_metric
      pure t.comp
  let riemann_con ← if riemann.config = cfg_uuuu then pure riemann.comp
    else do
      let t ← riemann.change_config cfg_uuuu parent_metric
      pure t.comp
  let pm := match parent_metric with
    | none => riemann.parent_metric
    | some m => some m
  let prod8 : TComp d 8 := tensorproduct riemann_cov riemann_con
  let kretschmann_scalar := tensorcontraction (tensorcontraction (tensorcontraction
    (tensorcontraction prod8 0 4) 0 3) 0 2) 0 1
  Except.ok
    { arr := simplify_sympy_array kretschmann_scalar
      syms := riemann.syms
      parent_metric := pm
      name := "KretschmannScalar" }

end legacy

/-- The base `Scalar` class state (`src/einsteinpy/symbolic/scalar.py`
lines 7-41): a symbolic expression and an optional name.  The expression
type is a parameter `E` because the class only hands expressions to the
external CAS. -/
structure Scalar (E : Type) : Type where
  expr : E
  name : Option String
deriving DecidableEq

/-- Result of calling a `Scalar` method: the returned object, the state of
`self` after the call, and whether the returned object is `self` itself
(Python aliasing). -/
structure MethodResult (E : Type) : Type where
  ret : Scalar E
  selfAfter : Scalar E
  retAliasesSelf : Bool
deriving DecidableEq

/-- `Scalar.subs` (`scalar.py` lines 65-81): returns
`Scalar(self.expression().subs(*args), name=self.name)` — a fresh object
with the substituted expression; `self` is untouched.  The substitution
itself is the external CAS operation `substFn`. -/
def Scalar.subs {E : Type} (substFn : E → E) (self : Scalar E) : MethodResult E :=
  { ret := { expr := substFn self.expr, name := self.name }
    selfAfter := self
    retAliasesSelf := false }

/-- `Scalar.simplify` (`scalar.py` lines 83-103): with `set_self = True`
(the default) it executes `self.expr = self.expr.simplify(); return self`,
mutating `self` and returning the same object; with `set_self = False` it
returns a fresh `Scalar` with the simplified expression and leaves `self`
unchanged.  Simplification is the external CAS operation `simpFn`. -/
def Scalar.simplify {E : Type} (simpFn : E → E) (self : Scalar E)
    (set_self : Bool) : MethodResult E :=
  if set_self then
    { ret := { expr := simpFn self.expr, name := self.name }
      selfAfter := { expr := simpFn self.expr, name := self.name }
      retAliasesSelf := true }
  else
    { ret := { expr := simpFn self.expr, name := self.name }
      selfAfter := self
      retAliasesSelf := false }

/-! Sample concrete objects, used to instantiate theorems with hypotheses. -/

/-- Cartesian coordinate names of a 4-dimensional space-time. -/
def sampleSyms4 : List String := ["t", "x", "y", "z"]

/-- A concrete 4-dimensional metric (identity components). -/
def sampleMetric4 : MetricTensor 4 :=
  { lower := 1, upper := 1, syms := sampleSyms4 }

/-- A concrete order-4 tensor in `ulll` configuration over `sampleMetric4`. -/
def sampleRiemann4 : BaseRelativityTensor 4 4 :=
  { comp := fun _ => 0, config := cfg_ulll, parent_metric := some sampleMetric4
    syms := sampleSyms4 }

/-- A concrete 3-dimensional metric (identity components). -/
def sampleMetric3 : MetricTensor 3 :=
  { lower := 1, upper := 1, syms := ["x", "y", "z"] }

/-- A concrete Weyl tensor over `sampleMetric3`. -/
def sampleWeyl3 : WeylTensor 3 :=
  { comp := fun _ => 0, config := cfg_llll, parent_metric := some sampleMetric3
    syms := ["x", "y", "z"], name := "WeylTensor" }

/-- A concrete dual Weyl tensor over `sampleMetric3`. -/
def sampleDualWeyl3 : DualWeylTensor 3 :=
  { comp := fun _ => 0, config := cfg_llll, parent_metric := some sampleMetric3
    syms := ["x", "y", "z"], name := "DualWeylTensor" }

/-- Concrete Levi-Civita symbols over `sampleMetric3`. -/
def sampleLevi3 : LeviCivitaSymbols 3 :=
  { comp := fun _ => 0, config := cfg_llll, parent_metric := some sampleMetric3
    syms := ["x", "y", "z"], name := "LeviCivitaSymbols" }

/-- A concrete Weyl tensor with no parent metric. -/
def sampleWeylNP : WeylTensor 3 :=
  { comp := fun _ => 0, config := cfg_llll, parent_metric := none
    syms := ["x", "y", "z"], name := "WeylTensor" }

/-- A concrete dual Weyl tensor with no parent metric. -/
def sampleDualWeylNP : DualWeylTensor 3 :=
  { comp := fun _ => 0, config := cfg_llll, parent_metric := none
    syms := ["x", "y", "z"], name := "DualWeylTensor" }

/-- Concrete Levi-Civita symbols with no parent metric. -/
def sampleLeviNP : LeviCivitaSymbols 3 :=
  { comp := fun _ => 0, config := cfg_llll, parent_metric := none
    syms := ["x", "y", "z"], name := "LeviCivitaSymbols" }

/-- A concrete 1-dimensional metric. -/
def sampleMetric1 : MetricTensor 1 :=
  { lower := 1, upper := 1, syms := ["t"] }

/-- A concrete order-4 tensor over `sampleMetric1`. -/
def sampleRiemann1 : BaseRelativityTensor 1 4 :=
  { comp := fun _ => 1, config := cfg_ulll, parent_metric := some sampleMetric1
    syms := ["t"] }

/-- A concrete order-2 tensor over `sampleMetric1`. -/
def sampleRicci1 : BaseRelativityTensor 1 2 :=
  { comp := fun _ => 1, config := cfg_ll, parent_metric := some sampleMetric1
    syms := ["t"] }

/-! Helper lemmas shared by the claim theorems. -/

/-- Converting to the configuration a tensor already has leaves the
components unchanged: every fold step is a no-op. -/
theorem _change_config_id {d n : ℕ} (T : TComp d n) (cfg : Fin n → IndexKind)
    (g : MetricTensor d) : _change_config T cfg cfg g = T := by
  unfold _change_config
  have h : ∀ (L : List (Fin n)) (T : TComp d n),
      L.foldl (fun acc i =>
        if cfg i = cfg i then acc
        else applyMetricAt
          (match cfg i with
            | IndexKind.l => g.lower
            | IndexKind.u => g.upper) i acc) T = T := by
    intro L
    induction L with
    | nil => intro T; rfl
    | cons a L ih => intro T; rw [List.foldl_cons, if_pos rfl]; exact ih T
  exact h _ T

/-- Evaluation of the Kretschmann contraction chain: contracting the outer
product of two order-4 arrays over the axis pairs `(0,4)`, `(0,3)`, `(0,2)`,
`(0,1)` yields the full sum of the entrywise products over all four
indices. -/
theorem kretschmann_contraction_chain {d : ℕ} (cov con : TComp d 4) :
    scalarOf (tensorcontraction (tensorcontraction (tensorcontraction
      (tensorcontraction (tensorproduct cov con : TComp d 8) 0 4) 0 3) 0 2) 0 1)
    = ∑ l : Fin d, ∑ k : Fin d, ∑ j : Fin d, ∑ i : Fin d,
        cov (idx4 i j k l) * con (idx4 i j k l) := by
  simp only [scalarOf, tensorcontraction]
  refine Finset.sum_congr rfl fun l _ => Finset.sum_congr rfl fun k _ =>
    Finset.sum_congr rfl fun j _ => Finset.sum_congr rfl fun i _ => ?_
  show tensorproduct cov con _ = _
  unfold tensorproduct
  congr 1
  · congr 1
    funext x
    fin_cases x <;> rfl
  · congr 1
    funext x
    fin_cases x <;> rfl

/-- Evaluation of the third-Ricci contraction chain: contracting the
product of three copies of an order-2 array over the axis pairs `(0,5)`,
`(0,1)`, `(0,1)` yields the cyclic triple sum. -/
theorem third_ricci_contraction_chain {d : ℕ} (M : TComp d 2) :
    scalarOf (tensorcontraction (tensorcontraction (tensorcontraction
      (tensorproduct (tensorproduct M M) M : TComp d 6) 0 5) 0 1) 0 1)
    = ∑ k : Fin d, ∑ j : Fin d, ∑ i : Fin d,
        M (idx2 i j) * M (idx2 j k) * M (idx2 k i) := by
  simp only [scalarOf, tensorcontraction]
  refine Finset.sum_congr rfl fun k _ => Finset.sum_congr rfl fun j _ =>
    Finset.sum_congr rfl fun i _ => ?_
  show tensorproduct (tensorproduct M M) M _ = _
  unfold tensorproduct
  congr 1
  · congr 1
    · congr 1
      funext x
      fin_cases x <;> rfl
    · congr 1
      funext x
      fin_cases x <;> rfl
  · congr 1
    funext x
    fin_cases x <;> rfl

/-- The sum over the (unique) index of a rank-0 array is its single
element. -/
theorem rank0_sum_eq_value {d : ℕ} (K : TComp d 0) :
    (∑ p : Fin 0 → Fin d, K p) = K (fun a => a.elim0) := by
  haveI : Unique (Fin 0 → Fin d) :=
    ⟨⟨fun a => a.elim0⟩, fun f => funext fun a => a.elim0⟩
  exact (Fintype.sum_unique K).trans (congrArg K (funext fun a => a.elim0))

/-- Unraveling the flat counter `i + d·(k + d·(l + d·m))` recovers the
four indices (axis `i` fastest), as in the Weyl-tensor loop. -/
theorem flat_unravel {d : ℕ} (i k l m : Fin d) :
    (i.val + d * (k.val + d * (l.val + d * m.val))) % d = i.val ∧
    (i.val + d * (k.val + d * (l.val + d * m.val))) / d % d = k.val ∧
    (i.val + d * (k.val + d * (l.val + d * m.val))) / d ^ 2 % d = l.val ∧
    (i.val + d * (k.val + d * (l.val + d * m.val))) / d ^ 3 % d = m.val := by
  have hd : 0 < d := i.pos
  have hdiv : (i.val + d * (k.val + d * (l.val + d * m.val))) / d
      = k.val + d * (l.val + d * m.val) := by
    rw [Nat.add_mul_div_left _ _ hd, Nat.div_eq_of_lt i.isLt, Nat.zero_add]
  have hdiv2 : (i.val + d * (k.val + d * (l.val + d * m.val))) / d ^ 2
      = l.val + d * m.val := by
    rw [pow_two, ← Nat.div_div_eq_div_mul, hdiv,
      Nat.add_mul_div_left _ _ hd, Nat.div_eq_of_lt k.isLt, Nat.zero_add]
  have hdiv3 : (i.val + d * (k.val + d * (l.val + d * m.val))) / d ^ 3 = m.val := by
    rw [pow_succ, ← Nat.div_div_eq_div_mul, hdiv2,
      Nat.add_mul_div_left _ _ hd, Nat.div_eq_of_lt l.isLt, Nat.zero_add]
  refine ⟨?_, ?_, ?_, ?_⟩
  · rw [Nat.add_mul_mod_self_left, Nat.mod_eq_of_lt i.isLt]
  · rw [hdiv, Nat.add_mul_mod_self_left, Nat.mod_eq_of_lt k.isLt]
  · rw [hdiv2, Nat.add_mul_mod_self_left, Nat.mod_eq_of_lt l.isLt]
  · rw [hdiv3, Nat.mod_eq_of_lt m.isLt]

/-- `weylEntry` at the flat counter of `(i, k, l, m)` is the Weyl formula
at those indices. -/
theorem weylEntry_flat {d : ℕ} (hd : 0 < d) (g : Matrix (Fin d) (Fin d) ℚ)
    (rll : TComp d 4) (ric : TComp d 2) (rs : ℚ) (i k l m : Fin d) :
    weylEntry hd g rll ric rs (i.val + d * (k.val + d * (l.val + d * m.val)))
    = rll (idx4 i k l m) +
        (ric (idx2 i m) * g k l - ric (idx2 i l) * g k m
          + ric (idx2 k l) * g i m - ric (idx2 k m) * g i l) / ((d : ℚ) - 2) +
        rs * (g i l * g k m - g i m * g k l) / (((d : ℚ) - 1) * ((d : ℚ) - 2)) := by
  obtain ⟨h1, h2, h3, h4⟩ := flat_unravel i k l m
  unfold weylEntry
  rw [show (⟨(i.val + d * (k.val + d * (l.val + d * m.val))) % d,
        Nat.mod_lt _ hd⟩ : Fin d) = i from Fin.ext h1,
    show (⟨(i.val + d * (k.val + d * (l.val + d * m.val))) / d % d,
        Nat.mod_lt _ hd⟩ : Fin d) = k from Fin.ext h2,
    show (⟨(i.val + d * (k.val + d * (l.val + d * m.val))) / d ^ 2 % d,
        Nat.mod_lt _ hd⟩ : Fin d) = l from Fin.ext h3,
    show (⟨(i.val + d * (k.val + d * (l.val + d * m.val))) / d ^ 3 % d,
        Nat.mod_lt _ hd⟩ : Fin d) = m from Fin.ext h4]

/-! Claim theorems. -/

/-- C5: `change_config` resolves its metric as follows: if a metric
argument is given it is used; otherwise the tensor's parent metric is used;
and it raises `MissingMetricError` exactly when neither a metric argument
nor a parent metric is available — for `WeylTensor`, `DualWeylTensor` and
`LeviCivitaSymbols` alike.  "It is used" is witnessed by the result's
parent metric and by the conversion being performed with that metric. -/
theorem claim_C5_change_config_metric_resolution {d : ℕ}
    (w : WeylTensor d) (dw : DualWeylTensor d) (lc : LeviCivitaSymbols d)
    (nc : Fin 4 → IndexKind) :
    ((∀ m : MetricTensor d, ∃ r, w.change_config nc (some m) = Except.ok r ∧
        r.parent_metric = some m ∧ r.comp = _change_config w.comp w.config nc m) ∧
      (∀ m : MetricTensor d, w.parent_metric = some m →
        ∃ r, w.change_config nc none = Except.ok r ∧
          r.parent_metric = some m ∧ r.comp = _change_config w.comp w.config nc m) ∧
      (w.parent_metric = none → w.change_config nc none = Except.error
        (PyError.missingMetric "Parent Metric not found, can't do configuration change"))) ∧
    ((∀ m : MetricTensor d, ∃ r, dw.change_config nc (some m) = Except.ok r ∧
        r.parent_metric = some m ∧ r.comp = _change_config dw.comp dw.config nc m) ∧
      (∀ m : MetricTensor d, dw.parent_metric = some m →
        ∃ r, dw.change_config nc none = Except.ok r ∧
          r.parent_metric = some m ∧ r.comp = _change_config dw.comp dw.config nc m) ∧
      (dw.parent_metric = none → dw.change_config nc none = Except.error
        (PyError.missingMetric "Parent Metric not found, can't do configuration change"))) ∧
    ((∀ m : MetricTensor d, ∃ r, lc.change_config nc (some m) = Except.ok r ∧
        r.parent_metric = some m ∧ r.comp = _change_config lc.comp lc.config nc m) ∧
      (∀ m : MetricTensor d, lc.parent_metric = some m →
        ∃ r, lc.change_config nc none = Except.ok r ∧
          r.parent_metric = some m ∧ r.comp = _change_config lc.comp lc.config nc m) ∧
      (lc.parent_metric = none → lc.change_config nc none = Except.error
        (PyError.missingMetric "Parent Metric not found, can't do configuration change"))) := by
  refine ⟨⟨fun m => ⟨_, rfl, rfl, rfl⟩, fun m hpm => ?_, fun hnone => ?_⟩,
    ⟨fun m => ⟨_, rfl, rfl, rfl⟩, fun m hpm => ?_, fun hnone => ?_⟩,
    ⟨fun m => ⟨_, rfl, rfl, rfl⟩, fun m hpm => ?_, fun hnone => ?_⟩⟩
  · obtain ⟨comp, config, pm, syms, name⟩ := w
    simp only at hpm
    subst hpm
    exact ⟨_, rfl, rfl, rfl⟩
  · obtain ⟨comp, config, pm, syms, name⟩ := w
    simp only at hnone
    subst hnone
    rfl
  · obtain ⟨comp, config, pm, syms, name⟩ := dw
    simp only at hpm
    subst hpm
    exact ⟨_, rfl, rfl, rfl⟩
  · obtain ⟨comp, config, pm, syms, name⟩ := dw
    simp only at hnone
    subst hnone
    rfl
  · obtain ⟨comp, config, pm, syms, name⟩ := lc
    simp only at hpm
    subst hpm
    exact ⟨_, rfl, rfl, rfl⟩
  · obtain ⟨comp, config, pm, syms, name⟩ := lc
    simp only at hnone
    subst hnone
    rfl

/-- Witness for C5: on tensors with no parent metric and no metric
argument, all three `change_config` methods raise `MissingMetricError`. -/
theorem claim_C5_witness :
    sampleWeylNP.change_config cfg_uuuu none = Except.error
      (PyError.missingMetric "Parent Metric not found, can't do configuration change") ∧
    sampleDualWeylNP.change_config cfg_uuuu none = Except.error
      (PyError.missingMetric "Parent Metric not found, can't do configuration change") ∧
    sampleLeviNP.change_config cfg_uuuu none = Except.error
      (PyError.missingMetric "Parent Metric not found, can't do configuration change") :=
  ⟨(claim_C5_change_config_metric_resolution sampleWeylNP sampleDualWeylNP
      sampleLeviNP cfg_uuuu).1.2.2 rfl,
    (claim_C5_change_config_metric_resolution sampleWeylNP sampleDualWeylNP
      sampleLeviNP cfg_uuuu).2.1.2.2 rfl,
    (claim_C5_change_config_metric_resolution sampleWeylNP sampleDualWeylNP
      sampleLeviNP cfg_uuuu).2.2.2.2 rfl⟩

/-- C8: for every `WeylTensor` with a resolvable metric and every length-4
configuration, `change_config` returns a new `WeylTensor` (the return type)
whose config is the new configuration, whose parent metric is the resolved
metric, and whose name is the original name with the suffix `"__"` followed
by the new config string; the embedding is purely functional, so the
original tensor is unchanged. -/
theorem claim_C8_weyl_change_config_fields {d : ℕ} (self : WeylTensor d)
    (nc : Fin 4 → IndexKind) (m g : MetricTensor d)
    (hpm : self.parent_metric = some g) :
    (∃ r, self.change_config nc (some m) = Except.ok r ∧ r.config = nc ∧
      r.parent_metric = some m ∧ r.name = self.name ++ ("__" ++ configStr nc) ∧
      r.syms = self.syms) ∧
    (∃ r, self.change_config nc none = Except.ok r ∧ r.config = nc ∧
      r.parent_metric = some g ∧ r.name = self.name ++ ("__" ++ configStr nc) ∧
      r.syms = self.syms) := by
  constructor
  · exact ⟨_, rfl, rfl, rfl, rfl, rfl⟩
  · obtain ⟨comp, config, pm, syms, name⟩ := self
    simp only at hpm
    subst hpm
    exact ⟨_, rfl, rfl, rfl, rfl, rfl⟩

/-- Witness for C8 at a concrete Weyl tensor with an attached metric. -/
theorem claim_C8_witness :
    sampleWeyl3.parent_metric = some sampleMetric3 ∧
    (∃ r, sampleWeyl3.change_config cfg_uuuu none = Except.ok r ∧
      r.config = cfg_uuuu ∧ r.parent_metric = some sampleMetric3 ∧
      r.name = sampleWeyl3.name ++ ("__" ++ configStr cfg_uuuu) ∧
      r.syms = sampleWeyl3.syms) :=
  ⟨rfl, (claim_C8_weyl_change_config_fields sampleWeyl3 cfg_uuuu
    sampleMetric3 sampleMetric3 rfl).2⟩

/-- C9 counterexample: with the default `set_self = True`, `Scalar.simplify`
stores the simplified expression back into the original scalar (here the
external simplifier turns the stored representation `1` into the different
representation `0`) and returns `self` itself rather than a new object —
so the claim that `s.simplify()` returns a new Scalar and leaves the
original unchanged fails. -/
theorem claim_C9_counterexample :
    (Scalar.simplify (fun _ => (0 : ℚ)) { expr := 1, name := none } true).selfAfter
      ≠ ({ expr := 1, name := none } : Scalar ℚ) ∧
    (Scalar.simplify (fun _ => (0 : ℚ)) { expr := 1, name := none } true).retAliasesSelf
      = true := by
  constructor
  · intro h
    have h0 : (0 : ℚ) = 1 := congrArg Scalar.expr h
    norm_num at h0
  · rfl

/-- C9 (amended): `Scalar.subs` returns a new Scalar carrying the
substituted expression and leaves the original unchanged;
`Scalar.simplify` does so only when called with `set_self = False`; with
the default `set_self = True` it stores the simplified expression back
into the original scalar and returns that same (mutated) object. -/
theorem claim_C9_scalar_methods_amended {E : Type} (substFn simpFn : E → E)
    (s : Scalar E) :
    ((Scalar.subs substFn s).selfAfter = s ∧
      (Scalar.subs substFn s).ret.expr = substFn s.expr ∧
      (Scalar.subs substFn s).retAliasesSelf = false) ∧
    ((Scalar.simplify simpFn s false).selfAfter = s ∧
      (Scalar.simplify simpFn s false).ret.expr = simpFn s.expr ∧
      (Scalar.simplify simpFn s false).retAliasesSelf = false) ∧
    ((Scalar.simplify simpFn s true).selfAfter.expr = simpFn s.expr ∧
      (Scalar.simplify simpFn s true).ret = (Scalar.simplify simpFn s true).selfAfter ∧
      (Scalar.simplify simpFn s true).retAliasesSelf = true) :=
  ⟨⟨rfl, rfl, rfl⟩, ⟨rfl, rfl, rfl⟩, ⟨rfl, rfl, rfl⟩⟩

/-- C7: `DualWeylTensor.from_riemann` hands its Riemann-tensor argument to
`WeylTensor.from_metric`, which consumes it as a metric; the underlying
metric-interface access fails on an order-4 tensor, so the constructor
fails on every input instead of computing
`from_weyltensor(WeylTensor.from_riemann(R), parent_metric)`. -/
theorem claim_C7_dualweyl_from_riemann_misuses_argument {d : ℕ}
    (sqrtfn : ℚ → ℚ) (riemannOfMetric : MetricTensor d → BaseRelativityTensor d 4)
    (riemann : BaseRelativityTensor d 4) (parent_metric : Option (MetricTensor d)) :
    DualWeylTensor.from_riemann sqrtfn riemannOfMetric riemann parent_metric =
      Except.error (PyError.attributeError
        "'RiemannCurvatureTensor' object has no attribute 'lower_config'") := rfl

/-- C4: for every metric of dimension `d ≠ 4`, `LeviCivitaSymbols.from_metric`
raises the spec's `DimensionPreconditionError`, and
`DualWeylTensor.from_weyltensor` with a resolved metric of dimension
`d ≠ 4` (either passed as the argument or taken from the Weyl tensor's
parent) raises the spec's `DimensionPreconditionError`; no tensor is
returned in either case. -/
theorem claim_C4_dimension_preconditions {d : ℕ} (hd : d ≠ 4) (sqrtfn : ℚ → ℚ)
    (g : MetricTensor d) (w : WeylTensor d) :
    LeviCivitaSymbols.from_metric sqrtfn g =
      Except.error (PyError.dimensionPrecondition
        "currently the Levi Civita Symbols are only supported for a 4-Dimensional coordinate basis") ∧
    DualWeylTensor.from_weyltensor sqrtfn w (some g) =
      Except.error (PyError.dimensionPrecondition
        "Dimension of the space/space-time should be 4") ∧
    (w.parent_metric = some g → DualWeylTensor.from_weyltensor sqrtfn w none =
      Except.error (PyError.dimensionPrecondition
        "Dimension of the space/space-time should be 4")) := by
  refine ⟨?_, ?_, fun hpm => ?_⟩
  · unfold LeviCivitaSymbols.from_metric
    rw [if_neg hd]
  · unfold DualWeylTensor.from_weyltensor
    simp only [if_neg hd]
  · obtain ⟨comp, config, pm, syms, name⟩ := w
    simp only at hpm
    subst hpm
    unfold DualWeylTensor.from_weyltensor
    simp only [if_neg hd]

/-- Witness for C4 at the concrete 3-dimensional metric. -/
theorem claim_C4_witness :
    (3 : ℕ) ≠ 4 ∧
    (LeviCivitaSymbols.from_metric id sampleMetric3 =
      Except.error (PyError.dimensionPrecondition
        "currently the Levi Civita Symbols are only supported for a 4-Dimensional coordinate basis") ∧
    DualWeylTensor.from_weyltensor id sampleWeyl3 (some sampleMetric3) =
      Except.error (PyError.dimensionPrecondition
        "Dimension of the space/space-time should be 4") ∧
    (sampleWeyl3.parent_metric = some sampleMetric3 →
      DualWeylTensor.from_weyltensor id sampleWeyl3 none =
        Except.error (PyError.dimensionPrecondition
          "Dimension of the space/space-time should be 4"))) :=
  ⟨by decide, claim_C4_dimension_preconditions (by decide) id sampleMetric3 sampleWeyl3⟩

/-- `idx4` applied at position 0. -/
theorem idx4_app0 {d : ℕ} (i j k l : Fin d) : idx4 i j k l 0 = i := rfl

/-- `idx4` applied at position 1. -/
theorem idx4_app1 {d : ℕ} (i j k l : Fin d) : idx4 i j k l 1 = j := rfl

/-- `idx4` applied at position 2. -/
theorem idx4_app2 {d : ℕ} (i j k l : Fin d) : idx4 i j k l 2 = k := rfl

/-- `idx4` applied at position 3. -/
theorem idx4_app3 {d : ℕ} (i j k l : Fin d) : idx4 i j k l 3 = l := rfl

/-- C3: for every 4-dimensional metric `g`, every component of
`LeviCivitaSymbols.from_metric(g)` at multi-index `(i,j,k,l)` equals
`sqrt(|det(g_lower)|)` times the permutation parity of `(i,j,k,l)` (+1 for
an even permutation of (0,1,2,3), −1 for an odd one, 0 when any index
repeats, as the sample evaluations confirm); the result has config
`llll`. -/
theorem claim_C3_levicivita_components (sqrtfn : ℚ → ℚ) (g : MetricTensor 4) :
    ∃ lc, LeviCivitaSymbols.from_metric sqrtfn g = Except.ok lc ∧
      lc.config = cfg_llll ∧
      (∀ i j k l : Fin 4, lc.comp (idx4 i j k l) =
        sqrtfn |g.lower_config.det| * perm_parity [i.val, j.val, k.val, l.val]) ∧
      perm_parity [0, 1, 2, 3] = 1 ∧ perm_parity [1, 0, 2, 3] = -1 ∧
      perm_parity [0, 0, 2, 3] = 0 := by
  refine ⟨_, rfl, rfl, fun i j k l => ?_, by decide, by decide, by decide⟩
  have hi := i.isLt
  have hj := j.isLt
  have hk := k.isLt
  have hl := l.isLt
  show ((List.range 256).map _).getD _ 0 = _
  simp only [idx4_app0, idx4_app1, idx4_app2, idx4_app3]
  have hF : 64 * i.val + 16 * j.val + 4 * k.val + l.val < 256 := by omega
  rw [List.getD_eq_getElem _ _ (by simpa using hF), List.getElem_map,
    List.getElem_range]
  have e1 : (64 * i.val + 16 * j.val + 4 * k.val + l.val) / 64 % 4 = i.val := by omega
  have e2 : (64 * i.val + 16 * j.val + 4 * k.val + l.val) / 16 % 4 = j.val := by omega
  have e3 : (64 * i.val + 16 * j.val + 4 * k.val + l.val) / 4 % 4 = k.val := by omega
  have e4 : (64 * i.val + 16 * j.val + 4 * k.val + l.val) % 4 = l.val := by omega
  rw [e1, e2, e3, e4]
  rfl

/-- C6: for every Ricci tensor with an attached metric,
`ThirdRicciInvariant.from_riccitensor` returns the trace of the cube of the
mixed-form (`lu`) Ricci tensor viewed as a linear operator — the sum over
`i, j, k` of `R_i^j R_j^k R_k^i` — computed through the tensor product of
three mixed copies contracted over `(0,5)`, `(0,1)`, `(0,1)`. -/
theorem claim_C6_third_ricci_invariant {d : ℕ}
    (riccitensor : BaseRelativityTensor d 2) (g : MetricTensor d)
    (hpm : riccitensor.parent_metric = some g) :
    ∃ rm s, riccitensor.change_config cfg_lu none = Except.ok rm ∧
      ThirdRicciInvariant.from_riccitensor riccitensor none = Except.ok s ∧
      s.expr = ∑ k : Fin d, ∑ j : Fin d, ∑ i : Fin d,
        rm.comp (idx2 i j) * rm.comp (idx2 j k) * rm.comp (idx2 k i) := by
  obtain ⟨comp, config, pm, syms⟩ := riccitensor
  simp only at hpm
  subst hpm
  by_cases hc : config = cfg_lu
  · subst hc
    refine ⟨_, _, rfl, rfl, ?_⟩
    dsimp only
    rw [_change_config_id]
    exact third_ricci_contraction_chain comp
  · have h : ThirdRicciInvariant.from_riccitensor
        ⟨comp, config, some g, syms⟩ none = Except.ok
        { expr := sympy_simplify (scalarOf (tensorcontraction (tensorcontraction
            (tensorcontraction (tensorproduct (tensorproduct
              (_change_config comp config cfg_lu g) (_change_config comp config cfg_lu g))
              (_change_config comp config cfg_lu g) : TComp d 6) 0 5) 0 1) 0 1))
          syms := syms
          parent_metric := some g
          name := "ThirdRicciInvariant" } := by
      unfold ThirdRicciInvariant.from_riccitensor
      rw [if_neg hc]
      rfl
    exact ⟨_, _, rfl, h, third_ricci_contraction_chain _⟩

/-- Witness for C6 at a concrete Ricci tensor with an attached metric. -/
theorem claim_C6_witness :
    sampleRicci1.parent_metric = some sampleMetric1 ∧
    (∃ rm s, sampleRicci1.change_config cfg_lu none = Except.ok rm ∧
      ThirdRicciInvariant.from_riccitensor sampleRicci1 none = Except.ok s ∧
      s.expr = ∑ k : Fin 1, ∑ j : Fin 1, ∑ i : Fin 1,
        rm.comp (idx2 i j) * rm.comp (idx2 j k) * rm.comp (idx2 k i)) :=
  ⟨rfl, claim_C6_third_ricci_invariant sampleRicci1 sampleMetric1 rfl⟩

/-- C1: for every Riemann tensor with an attached parent metric of nonzero
determinant, `KretschmannScalar.from_riemann` returns the full contraction
of the fully-covariant form with the fully-contravariant form (obtained by
`change_config` to `llll` and `uuuu`) over all four matching axis pairs:
the sum over all `i, j, k, l` of `R_{ijkl} · R^{ijkl}`. -/
theorem claim_C1_kretschmann_full_contraction {d : ℕ}
    (riemann : BaseRelativityTensor d 4) (g : MetricTensor d)
    (hpm : riemann.parent_metric = some g) (hdet : g.lower.det ≠ 0) :
    ∃ rc ru s,
      riemann.change_config cfg_llll none = Except.ok rc ∧
      riemann.change_config cfg_uuuu none = Except.ok ru ∧
      scalars.KretschmannScalar.from_riemann riemann none = Except.ok s ∧
      s.expr = ∑ l : Fin d, ∑ k : Fin d, ∑ j : Fin d, ∑ i : Fin d,
        rc.comp (idx4 i j k l) * ru.comp (idx4 i j k l) := by
  obtain ⟨comp, config, pm, syms⟩ := riemann
  simp only at hpm
  subst hpm
  by_cases hll : config = cfg_llll
  · have huu : ¬(config = cfg_uuuu) := by rw [hll]; decide
    have h : scalars.KretschmannScalar.from_riemann ⟨comp, config, some g, syms⟩ none
        = Except.ok
        { expr := scalarOf (simplify_sympy_array (tensorcontraction (tensorcontraction
            (tensorcontraction (tensorcontraction (tensorproduct comp
              (_change_config comp config cfg_uuuu g) : TComp d 8) 0 4) 0 3) 0 2) 0 1))
          syms := syms
          parent_metric := some g
          name := "KretschmannScalar" } := by
      unfold scalars.KretschmannScalar.from_riemann
      dsimp only
      simp only [if_pos hll, if_neg huu, pure_bind]
      rfl
    refine ⟨_, _, _, rfl, rfl, h, ?_⟩
    dsimp only
    rw [hll, _change_config_id]
    exact kretschmann_contraction_chain comp _
  · by_cases huu : config = cfg_uuuu
    · have h : scalars.KretschmannScalar.from_riemann ⟨comp, config, some g, syms⟩ none
          = Except.ok
          { expr := scalarOf (simplify_sympy_array (tensorcontraction (tensorcontraction
              (tensorcontraction (tensorcontraction (tensorproduct
                (_change_config comp config cfg_llll g) comp : TComp d 8) 0 4) 0 3) 0 2) 0 1))
            syms := syms
            parent_metric := some g
            name := "KretschmannScalar" } := by
        unfold scalars.KretschmannScalar.from_riemann
        dsimp only
        simp only [if_neg hll, if_pos huu, pure_bind]
        rfl
      refine ⟨_, _, _, rfl, rfl, h, ?_⟩
      dsimp only
      rw [huu, _change_config_id]
      exact kretschmann_contraction_chain _ comp
    · have h : scalars.KretschmannScalar.from_riemann ⟨comp, config, some g, syms⟩ none
          = Except.ok
          { expr := scalarOf (simplify_sympy_array (tensorcontraction (tensorcontraction
              (tensorcontraction (tensorcontraction (tensorproduct
                (_change_config comp config cfg_llll g)
                (_change_config comp config cfg_uuuu g) : TComp d 8) 0 4) 0 3) 0 2) 0 1))
            syms := syms
            parent_metric := some g
            name := "KretschmannScalar" } := by
        unfold scalars.KretschmannScalar.from_riemann
        dsimp only
        simp only [if_neg hll, if_neg huu, pure_bind]
        rfl
      exact ⟨_, _, _, rfl, rfl, h, kretschmann_contraction_chain _ _⟩

/-- Witness for C1 at a concrete Riemann tensor over a metric with
determinant 1. -/
theorem claim_C1_witness :
    sampleRiemann1.parent_metric = some sampleMetric1 ∧
    sampleMetric1.lower.det ≠ 0 ∧
    (∃ rc ru s,
      sampleRiemann1.change_config cfg_llll none = Except.ok rc ∧
      sampleRiemann1.change_config cfg_uuuu none = Except.ok ru ∧
      scalars.KretschmannScalar.from_riemann sampleRiemann1 none = Except.ok s ∧
      s.expr = ∑ l : Fin 1, ∑ k : Fin 1, ∑ j : Fin 1, ∑ i : Fin 1,
        rc.comp (idx4 i j k l) * ru.comp (idx4 i j k l)) :=
  ⟨rfl, by rw [show sampleMetric1.lower = 1 from rfl, Matrix.det_one]; norm_num,
    claim_C1_kretschmann_full_contraction sampleRiemann1 sampleMetric1 rfl
      (by rw [show sampleMetric1.lower = 1 from rfl, Matrix.det_one]; norm_num)⟩

/-- C10: the legacy `KretschmannScalar.from_riemann` of
`kretschmannscalar.py` (result stored as a rank-0 tensor, exposed through
its `expr` property) and the current one of `scalars/kretschmann.py`
(result stored as a scalar) compute the identical scalar expression from
the same Riemann tensor input, through the same product-then-contract
sequence over the axis pairs `(0,4)`, `(0,3)`, `(0,2)`, `(0,1)`. -/
theorem claim_C10_legacy_and_current_kretschmann_agree {d : ℕ}
    (riemann : BaseRelativityTensor d 4) (parent_metric : Option (MetricTensor d)) :
    Except.map legacy.KretschmannScalar.expr
        (legacy.KretschmannScalar.from_riemann riemann parent_metric)
      = Except.map BaseRelativityScalar.expr
        (scalars.KretschmannScalar.from_riemann riemann parent_metric) := by
  unfold legacy.KretschmannScalar.from_riemann scalars.KretschmannScalar.from_riemann
  dsimp only
  by_cases h1 : riemann.config = cfg_llll
  · by_cases h2 : riemann.config = cfg_uuuu
    · rw [h1] at h2
      exact absurd h2 (by decide)
    · simp only [if_pos h1, if_neg h2, pure_bind]
      rcases riemann.change_config cfg_uuuu parent_metric with e | t
      · rfl
      · exact congrArg Except.ok (rank0_sum_eq_value _)
  · by_cases h2 : riemann.config = cfg_uuuu
    · simp only [if_neg h1, if_pos h2, pure_bind]
      rcases riemann.change_config cfg_llll parent_metric with e | t
      · rfl
      · exact congrArg Except.ok (rank0_sum_eq_value _)
    · simp only [if_neg h1, if_neg h2, pure_bind]
      rcases riemann.change_config cfg_llll parent_metric with e | t
      · rfl
      · rcases riemann.change_config cfg_uuuu parent_metric with e2 | t2
        · rfl
        · exact congrArg Except.ok (rank0_sum_eq_value _)

/-- C2: `WeylTensor.from_riemann` with a resolved metric of dimension 3
returns the zero `llll` tensor; with dimension below 3 it raises
(the spec's `DimensionPreconditionError`); with dimension above 3 it
returns the covariant Riemann tensor adjusted by the trace terms built
from the Ricci tensor, Ricci scalar and metric, normalized by `(d-2)` and
`(d-1)(d-2)`. -/
theorem claim_C2_weyl_from_riemann_cases {d : ℕ}
    (riemann : BaseRelativityTensor d 4) (g : MetricTensor d)
    (hpm : riemann.parent_metric = some g) (hcfg : riemann.config = cfg_ulll) :
    (d = 3 → WeylTensor.from_riemann riemann none = Except.ok
      { comp := fun _ => 0, config := cfg_llll, parent_metric := some g
        syms := riemann.syms, name := "WeylTensor" }) ∧
    (d < 3 → WeylTensor.from_riemann riemann none = Except.error
      (PyError.dimensionPrecondition
        "Dimension of the space/space-time should be 3 or more")) ∧
    (3 < d → ∃ rll ric rs W,
      riemann.change_config cfg_llll none = Except.ok rll ∧
      RicciTensor.from_riemann riemann none = Except.ok ric ∧
      RicciScalar.from_riccitensor ric none = Except.ok rs ∧
      WeylTensor.from_riemann riemann none = Except.ok W ∧
      W.config = cfg_llll ∧ W.parent_metric = some g ∧
      ∀ i k l m : Fin d, W.comp (idx4 i k l m) =
        rll.comp (idx4 i k l m) +
          (ric.comp (idx2 i m) * g.lower_config k l
            - ric.comp (idx2 i l) * g.lower_config k m
            + ric.comp (idx2 k l) * g.lower_config i m
            - ric.comp (idx2 k m) * g.lower_config i l) / ((d : ℚ) - 2) +
          rs.expr * (g.lower_config i l * g.lower_config k m
            - g.lower_config i m * g.lower_config k l) /
            (((d : ℚ) - 1) * ((d : ℚ) - 2))) := by
  obtain ⟨comp, config, pm, syms⟩ := riemann
  simp only at hpm hcfg
  subst hpm
  subst hcfg
  refine ⟨?_, ?_, ?_⟩
  · intro h3
    subst h3
    rfl
  · intro h3
    unfold WeylTensor.from_riemann
    dsimp only
    rw [dif_neg (by omega), if_neg (by omega)]
  · intro h3
    refine ⟨{ comp := _change_config comp cfg_ulll cfg_llll g, config := cfg_llll
              parent_metric := some g, syms := syms },
      { comp := tensorcontraction comp 0 1, config := cfg_ll
        parent_metric := some g, syms := syms },
      { expr := sympy_simplify (scalarOf (tensorcontraction
          (_change_config (tensorcontraction comp 0 1) cfg_ll cfg_ul g) 0 1))
        syms := syms, parent_metric := some g, name := "RicciScalar" },
      { comp := fun p => weylEntry (by omega) (MetricTensor.lower_config g)
          (_change_config comp cfg_ulll cfg_llll g) (tensorcontraction comp 0 1)
          (sympy_simplify (scalarOf (tensorcontraction
            (_change_config (tensorcontraction comp 0 1) cfg_ll cfg_ul g) 0 1)))
          ((p 0).val + d * ((p 1).val + d * ((p 2).val + d * (p 3).val)))
        config := cfg_llll, parent_metric := some g, syms := syms
        name := "WeylTensor" },
      rfl, rfl, rfl, ?_, rfl, rfl, ?_⟩
    · unfold WeylTensor.from_riemann
      dsimp only
      rw [dif_pos h3]
      rfl
    · intro i k l m
      dsimp only
      simp only [idx4_app0, idx4_app1, idx4_app2, idx4_app3]
      exact weylEntry_flat _ _ _ _ _ i k l m

/-- Witness for C2 at a concrete 4-dimensional Riemann tensor. -/
theorem claim_C2_witness :
    sampleRiemann4.parent_metric = some sampleMetric4 ∧
    sampleRiemann4.config = cfg_ulll ∧
    (((4 : ℕ) = 3 → WeylTensor.from_riemann sampleRiemann4 none = Except.ok
      { comp := fun _ => 0, config := cfg_llll, parent_metric := some sampleMetric4
        syms := sampleRiemann4.syms, name := "WeylTensor" }) ∧
    ((4 : ℕ) < 3 → WeylTensor.from_riemann sampleRiemann4 none = Except.error
      (PyError.dimensionPrecondition
        "Dimension of the space/space-time should be 3 or more")) ∧
    ((3 : ℕ) < 4 → ∃ rll ric rs W,
      sampleRiemann4.change_config cfg_llll none = Except.ok rll ∧
      RicciTensor.from_riemann sampleRiemann4 none = Except.ok ric ∧
      RicciScalar.from_riccitensor ric none = Except.ok rs ∧
      WeylTensor.from_riemann sampleRiemann4 none = Except.ok W ∧
      W.config = cfg_llll ∧ W.parent_metric = some sampleMetric4 ∧
      ∀ i k l m : Fin 4, W.comp (idx4 i k l m) =
        rll.comp (idx4 i k l m) +
          (ric.comp (idx2 i m) * sampleMetric4.lower_config k l
            - ric.comp (idx2 i l) * sampleMetric4.lower_config k m
            + ric.comp (idx2 k l) * sampleMetric4.lower_config i m
            - ric.comp (idx2 k m) * sampleMetric4.lower_config i l) / ((4 : ℚ) - 2) +
          rs.expr * (sampleMetric4.lower_config i l * sampleMetric4.lower_config k m
            - sampleMetric4.lower_config i m * sampleMetric4.lower_config k l) /
            (((4 : ℚ) - 1) * ((4 : ℚ) - 2)))) :=
  ⟨rfl, rfl, claim_C2_weyl_from_riemann_cases sampleRiemann4 sampleMetric4 rfl rfl⟩

end einsteinpy
